import Mathlib

/-!
# Verification of the iown-home io-homecontrol protocol engine

A shallow embedding, in Lean 4, of the protocol core of the repository:
the CRC-16/KERMIT routine, the custom running checksum, the IV and
authentication-tag (HMAC) construction, the key-transfer envelope, the
frame codec (build, serialize, parse, validate), the receive path of the
controller, the 2W channel hopper, the challenge-response authentication
manager and the discovery manager.

Bytes are modelled as natural numbers kept below 256, 16-bit words as
naturals kept below 65536.  C++ unsigned wrap-around is made explicit with
percent 256 / percent 65536 where the source relies on it.  Functions that
in C++ signal failure by returning false or 0 are modelled with Option;
a C++ execution that dereferences a null pointer (undefined behaviour)
is modelled as the value none of an Option result.

The AES-128-ECB block cipher is delegated by the source to the external
mbedTLS library, which is not part of this repository; it is implemented
here from its public specification (FIPS-197) so that every definition is
executable.
-/

namespace iohome

/-- Minimum frame size constant FRAME_MIN_SIZE from iohome_constants.h. -/
def FRAME_MIN_SIZE : Nat := 11

/-- Maximum frame size constant FRAME_MAX_SIZE from iohome_constants.h. -/
def FRAME_MAX_SIZE : Nat := 32

/-- Maximum parameter byte count FRAME_MAX_DATA_SIZE from iohome_constants.h. -/
def FRAME_MAX_DATA_SIZE : Nat := 21

/-- NODE_ID_SIZE from iohome_constants.h. -/
def NODE_ID_SIZE : Nat := 3

/-- ROLLING_CODE_SIZE from iohome_constants.h. -/
def ROLLING_CODE_SIZE : Nat := 2

/-- HMAC_SIZE from iohome_constants.h. -/
def HMAC_SIZE : Nat := 6

/-- CRC_SIZE from iohome_constants.h. -/
def CRC_SIZE : Nat := 2

/-- CTRL0_ORDER_MASK from iohome_constants.h (bits 7-6). -/
def CTRL0_ORDER_MASK : Nat := 0xC0

/-- CTRL0_PROTOCOL_MASK from iohome_constants.h (bit 5, set means 2W). -/
def CTRL0_PROTOCOL_MASK : Nat := 0x20

/-- CTRL0_LENGTH_MASK from iohome_constants.h (bits 4-0). -/
def CTRL0_LENGTH_MASK : Nat := 0x1F

/-- CTRL1_USE_BEACON from iohome_constants.h (bit 7). -/
def CTRL1_USE_BEACON : Nat := 0x80

/-- AES_KEY_SIZE from iohome_constants.h. -/
def AES_KEY_SIZE : Nat := 16

/-- IV_SIZE from iohome_constants.h. -/
def IV_SIZE : Nat := 16

/-- IV_PADDING from iohome_constants.h. -/
def IV_PADDING : Nat := 0x55

/-- CRC_POLYNOMIAL from iohome_constants.h. -/
def CRC_POLYNOMIAL : Nat := 0x8408

/-- CRC_INITIAL from iohome_constants.h. -/
def CRC_INITIAL : Nat := 0x0000

/-- The hardwired TRANSFER_KEY from iohome_constants.h. -/
def TRANSFER_KEY : List Nat :=
  [0x34, 0xC3, 0x46, 0x6E, 0xD8, 0x8F, 0x4E, 0x8E,
   0x16, 0xAA, 0x47, 0x39, 0x49, 0x88, 0x43, 0x73]

/-- CMD_CHALLENGE_RESPONSE from iohome_constants.h. -/
def CMD_CHALLENGE_RESPONSE : Nat := 0x3D

/-- CMD_KEY_TRANSFER_1W from iohome_constants.h. -/
def CMD_KEY_TRANSFER_1W : Nat := 0x30

namespace crypto

/-- One inner iteration of the CRC loop in compute_crc16_byte:
shift right by one and xor the polynomial when the low bit was set. -/
def crc16_step (crc : Nat) : Nat :=
  let remainder := if crc &&& 1 = 1 then CRC_POLYNOMIAL else 0
  (crc >>> 1) ^^^ remainder

/-- compute_crc16_byte from iohome_crypto.cpp: xor the data byte into the
crc and run eight shift-xor iterations. -/
def compute_crc16_byte (data : Nat) (crc : Nat) : Nat :=
  let c := crc ^^^ data
  crc16_step (crc16_step (crc16_step (crc16_step
    (crc16_step (crc16_step (crc16_step (crc16_step c)))))))

/-- compute_crc16 from iohome_crypto.cpp: fold compute_crc16_byte over the
buffer, starting from the given crc value. -/
def compute_crc16 (data : List Nat) (crc : Nat) : Nat :=
  data.foldl (fun c b => compute_crc16_byte b c) crc

/-- verify_crc16 from iohome_crypto.cpp: recompute the CRC over all bytes
except the last two and compare with the trailing little-endian CRC. -/
def verify_crc16 (frame : List Nat) : Bool :=
  if frame.length < CRC_SIZE then false
  else
    let calculated := compute_crc16 (frame.take (frame.length - CRC_SIZE)) CRC_INITIAL
    let received := frame.getD (frame.length - 2) 0 ||| (frame.getD (frame.length - 1) 0 <<< 8)
    calculated = received

/-- compute_checksum from iohome_crypto.cpp: one step of the custom
two-accumulator running checksum, returning the new pair (chksum1, chksum2). -/
def compute_checksum (frame_byte chksum1 chksum2 : Nat) : Nat × Nat :=
  let tmpchksum := frame_byte ^^^ chksum2
  let c2 := ((chksum1 &&& 0x7F) <<< 1) &&& 0xFF
  if chksum1 &&& 0x80 = 0 then
    let c2 := if tmpchksum ≥ 128 then c2 ||| 1 else c2
    (c2, (tmpchksum <<< 1) &&& 0xFF)
  else
    let c2 := if tmpchksum ≥ 128 then c2 ||| 1 else c2
    (c2 ^^^ 0x55, ((tmpchksum <<< 1) ^^^ 0x5B) &&& 0xFF)

/-- The running checksum of a byte list, both accumulators starting at zero,
as performed by the loops of construct_iv_1w and construct_iv_2w. -/
def run_checksum (data : List Nat) : Nat × Nat :=
  data.foldl (fun cs b => compute_checksum b cs.1 cs.2) (0, 0)

/-- construct_iv_1w from iohome_crypto.cpp: bytes 0-7 are the frame data
padded with 0x55, bytes 8-9 the running checksum over all of the data,
bytes 10-11 the sequence number, bytes 12-15 padding 0x55. -/
def construct_iv_1w (frame_data : List Nat) (sequence_number : List Nat) : List Nat :=
  let cs := run_checksum frame_data
  (frame_data.take 8 ++ List.replicate (8 - frame_data.length) IV_PADDING)
    ++ [cs.1, cs.2]
    ++ [sequence_number.getD 0 0, sequence_number.getD 1 0]
    ++ List.replicate 4 IV_PADDING

/-- construct_iv_2w from iohome_crypto.cpp: bytes 0-7 are the frame data
padded with 0x55, bytes 8-9 the running checksum, bytes 10-15 the
challenge.  The source copies six bytes from the challenge pointer with
memcpy; when the caller passes a null challenge this dereferences null,
which is undefined behaviour, modelled here as none. -/
def construct_iv_2w (frame_data : List Nat) (challenge : Option (List Nat)) :
    Option (List Nat) :=
  match challenge with
  | none => none
  | some ch =>
    let cs := run_checksum frame_data
    some ((frame_data.take 8 ++ List.replicate (8 - frame_data.length) IV_PADDING)
      ++ [cs.1, cs.2] ++ ch.take 6 ++ List.replicate (6 - ch.length) 0)

/-- The AES S-box (FIPS-197, figure 7).  The source delegates AES-128-ECB
to the external mbedTLS library, which is not part of this repository;
the cipher is implemented here from its public specification. -/
def sbox : List Nat :=
  [0x63, 0x7c, 0x77, 0x7b, 0xf2, 0x6b, 0x6f, 0xc5, 0x30, 0x01, 0x67, 0x2b, 0xfe, 0xd7, 0xab, 0x76,
   0xca, 0x82, 0xc9, 0x7d, 0xfa, 0x59, 0x47, 0xf0, 0xad, 0xd4, 0xa2, 0xaf, 0x9c, 0xa4, 0x72, 0xc0,
   0xb7, 0xfd, 0x93, 0x26, 0x36, 0x3f, 0xf7, 0xcc, 0x34, 0xa5, 0xe5, 0xf1, 0x71, 0xd8, 0x31, 0x15,
   0x04, 0xc7, 0x23, 0xc3, 0x18, 0x96, 0x05, 0x9a, 0x07, 0x12, 0x80, 0xe2, 0xeb, 0x27, 0xb2, 0x75,
   0x09, 0x83, 0x2c, 0x1a, 0x1b, 0x6e, 0x5a, 0xa0, 0x52, 0x3b, 0xd6, 0xb3, 0x29, 0xe3, 0x2f, 0x84,
   0x53, 0xd1, 0x00, 0xed, 0x20, 0xfc, 0xb1, 0x5b, 0x6a, 0xcb, 0xbe, 0x39, 0x4a, 0x4c, 0x58, 0xcf,
   0xd0, 0xef, 0xaa, 0xfb, 0x43, 0x4d, 0x33, 0x85, 0x45, 0xf9, 0x02, 0x7f, 0x50, 0x3c, 0x9f, 0xa8,
   0x51, 0xa3, 0x40, 0x8f, 0x92, 0x9d, 0x38, 0xf5, 0xbc, 0xb6, 0xda, 0x21, 0x10, 0xff, 0xf3, 0xd2,
   0xcd, 0x0c, 0x13, 0xec, 0x5f, 0x97, 0x44, 0x17, 0xc4, 0xa7, 0x7e, 0x3d, 0x64, 0x5d, 0x19, 0x73,
   0x60, 0x81, 0x4f, 0xdc, 0x22, 0x2a, 0x90, 0x88, 0x46, 0xee, 0xb8, 0x14, 0xde, 0x5e, 0x0b, 0xdb,
   0xe0, 0x32, 0x3a, 0x0a, 0x49, 0x06, 0x24, 0x5c, 0xc2, 0xd3, 0xac, 0x62, 0x91, 0x95, 0xe4, 0x79,
   0xe7, 0xc8, 0x37, 0x6d, 0x8d, 0xd5, 0x4e, 0xa9, 0x6c, 0x56, 0xf4, 0xea, 0x65, 0x7a, 0xae, 0x08,
   0xba, 0x78, 0x25, 0x2e, 0x1c, 0xa6, 0xb4, 0xc6, 0xe8, 0xdd, 0x74, 0x1f, 0x4b, 0xbd, 0x8b, 0x8a,
   0x70, 0x3e, 0xb5, 0x66, 0x48, 0x03, 0xf6, 0x0e, 0x61, 0x35, 0x57, 0xb9, 0x86, 0xc1, 0x1d, 0x9e,
   0xe1, 0xf8, 0x98, 0x11, 0x69, 0xd9, 0x8e, 0x94, 0x9b, 0x1e, 0x87, 0xe9, 0xce, 0x55, 0x28, 0xdf,
   0x8c, 0xa1, 0x89, 0x0d, 0xbf, 0xe6, 0x42, 0x68, 0x41, 0x99, 0x2d, 0x0f, 0xb0, 0x54, 0xbb, 0x16]

/-- S-box lookup of one byte. -/
def sub_byte (b : Nat) : Nat := sbox.getD b 0

/-- Multiplication by x in GF(2 ^ 8) modulo the AES polynomial. -/
def mul2 (b : Nat) : Nat := ((b <<< 1) ^^^ ((b >>> 7) * 0x1B)) &&& 0xFF

/-- Multiplication by x + 1 in GF(2 ^ 8). -/
def mul3 (b : Nat) : Nat := mul2 b ^^^ b

/-- The AES round constants for key expansion. -/
def rcon : List Nat := [0x01, 0x02, 0x04, 0x08, 0x10, 0x20, 0x40, 0x80, 0x1B, 0x36]

/-- One-position left rotation of a key-schedule word. -/
def rot_word (w : List Nat) : List Nat := w.drop 1 ++ w.take 1

/-- S-box substitution on a key-schedule word. -/
def sub_word (w : List Nat) : List Nat := w.map sub_byte

/-- Key-expansion recursion: acc holds the schedule words produced so far,
newest first; n counts the words still to produce. -/
def ks_rec : Nat → List (List Nat) → List (List Nat)
  | 0, acc => acc
  | n + 1, acc =>
    let i := acc.length
    let temp := acc.headD []
    let temp :=
      if i % 4 = 0 then
        List.zipWith Nat.xor (sub_word (rot_word temp)) [rcon.getD (i / 4 - 1) 0, 0, 0, 0]
      else temp
    ks_rec n (List.zipWith Nat.xor (acc.getD 3 []) temp :: acc)

/-- The eleven 16-byte round keys expanded from a 16-byte AES-128 key. -/
def round_keys (key : List Nat) : List (List Nat) :=
  let w0 := key.take 4
  let w1 := (key.drop 4).take 4
  let w2 := (key.drop 8).take 4
  let w3 := (key.drop 12).take 4
  let w := (ks_rec 40 [w3, w2, w1, w0]).reverse
  (List.range 11).map (fun r =>
    w.getD (4 * r) [] ++ w.getD (4 * r + 1) [] ++ w.getD (4 * r + 2) [] ++ w.getD (4 * r + 3) [])

/-- SubBytes on the flat 16-byte state. -/
def sub_bytes (st : List Nat) : List Nat := st.map sub_byte

/-- ShiftRows on the flat column-major 16-byte state. -/
def shift_rows (st : List Nat) : List Nat :=
  (List.range 16).map (fun i =>
    st.getD ((i % 4) + 4 * (((i / 4) + (i % 4)) % 4)) 0)

/-- MixColumns on the flat column-major 16-byte state. -/
def mix_columns (st : List Nat) : List Nat :=
  (List.range 16).map (fun i =>
    let c := i / 4
    let s := fun j => st.getD (4 * c + j) 0
    match i % 4 with
    | 0 => mul2 (s 0) ^^^ mul3 (s 1) ^^^ s 2 ^^^ s 3
    | 1 => s 0 ^^^ mul2 (s 1) ^^^ mul3 (s 2) ^^^ s 3
    | 2 => s 0 ^^^ s 1 ^^^ mul2 (s 2) ^^^ mul3 (s 3)
    | _ => mul3 (s 0) ^^^ s 1 ^^^ s 2 ^^^ mul2 (s 3))

/-- AddRoundKey on the flat 16-byte state. -/
def add_round_key (st rk : List Nat) : List Nat :=
  (List.range 16).map (fun i => st.getD i 0 ^^^ rk.getD i 0)

/-- aes128_encrypt from iohome_crypto.cpp: encryption of one 16-byte block
under a 16-byte key.  The source wraps mbedTLS (external to this
repository); the failure path of the wrapper is only taken when mbedTLS
reports an error, which cannot happen for the fixed 128-bit key size, so
the model is total.  Argument order follows the source: input block first,
then the key. -/
def aes128_encrypt (input key : List Nat) : List Nat :=
  let rks := round_keys key
  let st0 := add_round_key input (rks.getD 0 [])
  let st9 := (List.range 9).foldl
    (fun st r => add_round_key (mix_columns (shift_rows (sub_bytes st))) (rks.getD (r + 1) []))
    st0
  add_round_key (shift_rows (sub_bytes st9)) (rks.getD 10 [])

/-- The AES block produced by the model always has 16 bytes. -/
theorem aes128_encrypt_length (input key : List Nat) :
    (aes128_encrypt input key).length = 16 := by
  simp [aes128_encrypt, add_round_key]

/-- encrypt_1w_key from iohome_crypto.cpp: build the 16-byte IV by cycling
the 3-byte node address, encrypt it under TRANSFER_KEY, and xor the result
with the system key. -/
def encrypt_1w_key (system_key node_address : List Nat) : List Nat :=
  let iv := (List.range 16).map (fun i => node_address.getD (i % NODE_ID_SIZE) 0)
  let encrypted_iv := aes128_encrypt iv TRANSFER_KEY
  List.zipWith Nat.xor system_key encrypted_iv

/-- create_1w_hmac from iohome_crypto.cpp: encrypt the 1W IV under the
system key and truncate to six bytes. -/
def create_1w_hmac (frame_data : List Nat) (sequence_number : List Nat)
    (system_key : List Nat) : List Nat :=
  (aes128_encrypt (construct_iv_1w frame_data sequence_number) system_key).take HMAC_SIZE

/-- create_2w_hmac from iohome_crypto.cpp: encrypt the 2W IV under the
system key and truncate to six bytes; none models the undefined behaviour
of the null-challenge IV construction. -/
def create_2w_hmac (frame_data : List Nat) (challenge : Option (List Nat))
    (system_key : List Nat) : Option (List Nat) :=
  (construct_iv_2w frame_data challenge).map
    (fun iv => (aes128_encrypt iv system_key).take HMAC_SIZE)

/-- The six-byte comparison loop of verify_hmac: a constant-time byte-wise
comparison reading exactly HMAC_SIZE bytes of each buffer. -/
def hmac_eq (a b : List Nat) : Bool :=
  (List.range HMAC_SIZE).all (fun i => a.getD i 0 == b.getD i 0)

/-- verify_hmac from iohome_crypto.cpp: recompute the tag for the given
mode and compare with the received one.  In 1W mode the pointer argument
is the two-byte rolling code, in 2W mode the six-byte challenge; a null
pointer reaches a null memcpy inside the IV construction, modelled as
none. -/
def verify_hmac (frame_data : List Nat) (received_hmac : List Nat)
    (sequence_or_challenge : Option (List Nat)) (system_key : List Nat)
    (is_2w : Bool) : Option Bool :=
  if is_2w then
    (create_2w_hmac frame_data sequence_or_challenge system_key).map
      (fun h => hmac_eq h received_hmac)
  else
    match sequence_or_challenge with
    | none => none
    | some seq => some (hmac_eq (create_1w_hmac frame_data seq system_key) received_hmac)

end crypto

namespace frame

/-- The IoFrame structure from iohome_frame.h.  The fixed C arrays are
modelled as lists whose length every constructor in the source maintains
(dest_node and src_node 3 bytes, rolling_code 2, hmac 6, crc 2); data
holds exactly data_len bytes, so the separate data_len field of the
struct is data.length here. -/
structure IoFrame where
  ctrl_byte_0 : Nat
  ctrl_byte_1 : Nat
  dest_node : List Nat
  src_node : List Nat
  command_id : Nat
  data : List Nat
  rolling_code : List Nat
  hmac : List Nat
  crc : List Nat
  is_1w_mode : Bool
  frame_length : Nat
deriving DecidableEq, Repr

/-- is_2w_mode from iohome_frame.h: bit 5 of control byte 0. -/
def is_2w_mode (ctrl_byte_0 : Nat) : Bool :=
  ctrl_byte_0 &&& CTRL0_PROTOCOL_MASK ≠ 0

/-- get_frame_length from iohome_frame.h: low five bits of control byte 0
plus FRAME_MIN_SIZE. -/
def get_frame_length (ctrl_byte_0 : Nat) : Nat :=
  (ctrl_byte_0 &&& CTRL0_LENGTH_MASK) + FRAME_MIN_SIZE

/-- init_frame from iohome_frame.cpp: zero the frame, record the mode and
set the 2W bit of control byte 0 when not in 1W mode. -/
def init_frame (is_1w : Bool) : IoFrame :=
  { ctrl_byte_0 := if is_1w then 0x00 else CTRL0_PROTOCOL_MASK
    ctrl_byte_1 := 0x00
    dest_node := [0, 0, 0]
    src_node := [0, 0, 0]
    command_id := 0
    data := []
    rolling_code := [0, 0]
    hmac := [0, 0, 0, 0, 0, 0]
    crc := [0, 0]
    is_1w_mode := is_1w
    frame_length := 0 }

/-- set_destination from iohome_frame.cpp: copy three bytes of node id. -/
def set_destination (f : IoFrame) (node_id : List Nat) : IoFrame :=
  { f with dest_node := (List.range NODE_ID_SIZE).map (fun i => node_id.getD i 0) }

/-- set_source from iohome_frame.cpp: copy three bytes of node id. -/
def set_source (f : IoFrame) (node_id : List Nat) : IoFrame :=
  { f with src_node := (List.range NODE_ID_SIZE).map (fun i => node_id.getD i 0) }

/-- set_command from iohome_frame.cpp: reject parameter lists longer than
FRAME_MAX_DATA_SIZE, store command and parameters, compute the
frame_length field as 9 + 1 + data_len + (rolling code in 1W) + hmac +
crc, and write frame_length - FRAME_MIN_SIZE into the low five bits of
control byte 0. -/
def set_command (f : IoFrame) (cmd_id : Nat) (params : List Nat) : Option IoFrame :=
  if params.length > FRAME_MAX_DATA_SIZE then none
  else
    let total_length :=
      if f.is_1w_mode then
        9 + 1 + params.length + ROLLING_CODE_SIZE + HMAC_SIZE + CRC_SIZE
      else
        9 + 1 + params.length + HMAC_SIZE + CRC_SIZE
    some { f with
      command_id := cmd_id
      data := params
      frame_length := total_length
      ctrl_byte_0 := (f.ctrl_byte_0 &&& (0xFF ^^^ CTRL0_LENGTH_MASK))
        ||| ((total_length - FRAME_MIN_SIZE) &&& CTRL0_LENGTH_MASK) }

/-- set_rolling_code from iohome_frame.cpp: store the 16-bit code with the
least significant byte first. -/
def set_rolling_code (f : IoFrame) (code : Nat) : IoFrame :=
  { f with rolling_code := [code &&& 0xFF, (code >>> 8) &&& 0xFF] }

/-- serialize_frame from iohome_frame.cpp: fail when the buffer is smaller
than the frame_length field, otherwise emit control bytes, destination,
source, command, parameters, the rolling code in 1W mode, the hmac and
the crc, returning the bytes written. -/
def serialize_frame (f : IoFrame) (buffer_size : Nat) : Option (List Nat) :=
  if buffer_size < f.frame_length then none
  else some ([f.ctrl_byte_0, f.ctrl_byte_1] ++ f.dest_node ++ f.src_node
    ++ [f.command_id] ++ f.data
    ++ (if f.is_1w_mode then f.rolling_code else [])
    ++ f.hmac ++ f.crc)

/-- finalize_frame from iohome_frame.cpp: compute the hmac over command
plus parameters (1W: bound to the rolling code; 2W: to the challenge,
failing when none is supplied), serialize into a FRAME_MAX_SIZE scratch
buffer, compute the crc over everything but the trailing crc bytes, and
store it least significant byte first.  none models a false return. -/
def finalize_frame (f : IoFrame) (system_key : List Nat)
    (challenge : Option (List Nat)) : Option IoFrame :=
  let frame_data := f.command_id :: f.data
  let hmac? : Option (List Nat) :=
    if f.is_1w_mode then
      some (crypto.create_1w_hmac frame_data f.rolling_code system_key)
    else
      match challenge with
      | none => none
      | some ch =>
        match crypto.create_2w_hmac frame_data (some ch) system_key with
        | some h => some h
        | none => none
  match hmac? with
  | none => none
  | some h =>
    let f1 := { f with hmac := h }
    match serialize_frame f1 FRAME_MAX_SIZE with
    | none => none
    | some bytes =>
      let crc_value := crypto.compute_crc16 (bytes.take (bytes.length - CRC_SIZE)) CRC_INITIAL
      some { f1 with crc := [crc_value &&& 0xFF, (crc_value >>> 8) &&& 0xFF] }

/-- parse_frame from iohome_frame.cpp: require at least FRAME_MIN_SIZE
bytes, decode the mode and frame length from control byte 0, require the
buffer to hold the whole frame, compute the parameter count by an
unsigned 8-bit subtraction of the fixed overhead, reject counts above
FRAME_MAX_DATA_SIZE, and read the remaining fields at their offsets.
Fields the source memsets to zero and never overwrites (the rolling code
of a 2W frame) stay zero. -/
def parse_frame (buffer : List Nat) : Option IoFrame :=
  if buffer.length < FRAME_MIN_SIZE then none
  else
    let c0 := buffer.getD 0 0
    let c1 := buffer.getD 1 0
    let is_1w := ¬ is_2w_mode c0
    let fl := get_frame_length c0
    if buffer.length < fl then none
    else
      let data_len :=
        if is_1w then
          (fl + 256 - (9 + 1 + ROLLING_CODE_SIZE + HMAC_SIZE + CRC_SIZE)) % 256
        else
          (fl + 256 - (9 + 1 + HMAC_SIZE + CRC_SIZE)) % 256
      if data_len > FRAME_MAX_DATA_SIZE then none
      else
        let rc_off := 9 + data_len
        let hmac_off := rc_off + (if is_1w then ROLLING_CODE_SIZE else 0)
        some
          { ctrl_byte_0 := c0
            ctrl_byte_1 := c1
            dest_node := (buffer.drop 2).take NODE_ID_SIZE
            src_node := (buffer.drop 5).take NODE_ID_SIZE
            command_id := buffer.getD 8 0
            data := (buffer.drop 9).take data_len
            rolling_code :=
              if is_1w then (buffer.drop rc_off).take ROLLING_CODE_SIZE else [0, 0]
            hmac := (buffer.drop hmac_off).take HMAC_SIZE
            crc := (buffer.drop (hmac_off + HMAC_SIZE)).take CRC_SIZE
            is_1w_mode := is_1w
            frame_length := fl }

/-- validate_frame from iohome_frame.cpp: serialize into a FRAME_MAX_SIZE
scratch buffer (a failed serialize returns false), verify the crc, and
when a system key is supplied verify the hmac, bound to the rolling code
of a 1W frame or to the challenge argument of a 2W frame.  The source
never checks the challenge pointer for null, so a 2W frame with a key but
no challenge reaches the null memcpy in the IV construction: none. -/
def validate_frame (f : IoFrame) (system_key : Option (List Nat))
    (challenge : Option (List Nat)) : Option Bool :=
  match serialize_frame f FRAME_MAX_SIZE with
  | none => some false
  | some bytes =>
    if ¬ crypto.verify_crc16 bytes then some false
    else
      match system_key with
      | none => some true
      | some key =>
        let seq_or_challenge :=
          if f.is_1w_mode then some f.rolling_code else challenge
        crypto.verify_hmac (f.command_id :: f.data) f.hmac seq_or_challenge key
          (¬ f.is_1w_mode)

end frame

/-- The receive-relevant state of the IoHomeControl controller from
IoHomeControl.h: node id, system key, mode, the transmit rolling code
counter and the receiving flag.  There is no per-source last-seen rolling
code state anywhere in the class. -/
structure IoHomeControl where
  own_node_id : List Nat
  system_key : List Nat
  is_1w_mode : Bool
  rolling_code : Nat
  receiving : Bool
deriving DecidableEq, Repr

/-- check_received from IoHomeControl.cpp, with the radio externalized:
the bytes the radio delivered are the input.  Returns the acceptance
decision (some false: dropped; some true: delivered to the callback; none:
undefined behaviour inside validate_frame) together with the controller
state, which the receive path never modifies.  The frame is parsed, then
validated against the stored system key with no challenge argument; no
rolling-code comparison of any kind is performed. -/
def check_received (st : IoHomeControl) (buffer : List Nat) :
    Option Bool × IoHomeControl :=
  if ¬ st.receiving then (some false, st)
  else
    match frame.parse_frame buffer with
    | none => (some false, st)
    | some f => (frame.validate_frame f (some st.system_key) none, st)

namespace mode2w

/-- Wrap-around of the 64-bit unsigned long arithmetic used by the hosted
build of iohome_2w.cpp for times. -/
def U64 : Nat := 2 ^ 64

/-- Unsigned 64-bit subtraction a - b with wrap-around. -/
def usub (a b : Nat) : Nat := (a % U64 + (U64 - b % U64)) % U64

/-- The ChannelState enumeration from iohome_2w.h. -/
inductive ChannelState where
  | CHANNEL_1
  | CHANNEL_2
  | CHANNEL_3
deriving DecidableEq, Repr

/-- The ChannelHopper state from iohome_2w.h. -/
structure ChannelHopper where
  current_channel : ChannelState
  last_hop_time_ms : Nat
  hop_interval_us : Nat
  enabled : Bool
deriving DecidableEq, Repr

/-- ChannelHopper::next_channel from iohome_2w.cpp: CHANNEL_1 to
CHANNEL_2 to CHANNEL_3 and back to CHANNEL_1. -/
def next_channel : ChannelState → ChannelState
  | ChannelState.CHANNEL_1 => ChannelState.CHANNEL_2
  | ChannelState.CHANNEL_2 => ChannelState.CHANNEL_3
  | ChannelState.CHANNEL_3 => ChannelState.CHANNEL_1

/-- ChannelHopper::begin from iohome_2w.cpp at clock value now_ms:
interval stored in microseconds, channel reset to CHANNEL_2, hopping
disabled.  The default interval argument CHANNEL_HOP_TIME_MS = 2.7 ms
stores 2700 microseconds. -/
def hopper_begin (hop_interval_us now_ms : Nat) : ChannelHopper :=
  { current_channel := ChannelState.CHANNEL_2
    last_hop_time_ms := now_ms
    hop_interval_us := hop_interval_us
    enabled := false }

/-- ChannelHopper::update from iohome_2w.cpp: the current time is taken
in milliseconds, multiplied by 1000, and compared against the
microsecond dwell interval; on a hop the channel advances one step and
the whole millisecond timestamp is recorded. -/
def hopper_update (h : ChannelHopper) (current_time_ms : Nat) :
    Bool × ChannelHopper :=
  if ¬ h.enabled then (false, h)
  else
    let elapsed_us := usub (current_time_ms * 1000) (h.last_hop_time_ms * 1000)
    if elapsed_us ≥ h.hop_interval_us then
      (true, { h with
        current_channel := next_channel h.current_channel
        last_hop_time_ms := current_time_ms })
    else (false, h)

/-- Drive the hopper through a list of poll times, counting hops. -/
def hopper_run (h : ChannelHopper) (times : List Nat) : ChannelHopper × Nat :=
  times.foldl
    (fun p t =>
      let r := hopper_update p.1 t
      (r.2, p.2 + if r.1 then 1 else 0))
    (h, 0)

/-- The ChallengeState enumeration from iohome_2w.h. -/
inductive ChallengeState where
  | IDLE
  | CHALLENGE_SENT
  | AUTHENTICATED
deriving DecidableEq, Repr

/-- The AuthenticationManager state from iohome_2w.h.  The constructor
sets the timeout to 5000 ms and nothing in the source ever changes it. -/
structure AuthenticationManager where
  system_key : List Nat
  current_challenge : List Nat
  state : ChallengeState
  challenge_timestamp : Nat
  challenge_timeout_ms : Nat
deriving DecidableEq, Repr

/-- AuthenticationManager::generate_challenge from iohome_2w.cpp, with the
random source and clock externalized: store the drawn challenge, record
the time and enter CHALLENGE_SENT. -/
def generate_challenge (m : AuthenticationManager) (challenge : List Nat)
    (now_ms : Nat) : AuthenticationManager :=
  { m with
    current_challenge := challenge
    challenge_timestamp := now_ms
    state := ChallengeState.CHALLENGE_SENT }

/-- AuthenticationManager::verify_challenge_response from iohome_2w.cpp,
with the clock externalized as now_ms: require state CHALLENGE_SENT;
fall back to IDLE on timeout; require command 0x3D; validate the frame
against the stored key with the stored challenge as binding; on success
enter AUTHENTICATED. -/
def verify_challenge_response (m : AuthenticationManager) (now_ms : Nat)
    (f : frame.IoFrame) : Bool × AuthenticationManager :=
  if m.state ≠ ChallengeState.CHALLENGE_SENT then (false, m)
  else if usub now_ms m.challenge_timestamp > m.challenge_timeout_ms then
    (false, { m with state := ChallengeState.IDLE })
  else if f.command_id ≠ CMD_CHALLENGE_RESPONSE then (false, m)
  else
    match frame.validate_frame f (some m.system_key) (some m.current_challenge) with
    | some true => (true, { m with state := ChallengeState.AUTHENTICATED })
    | _ => (false, m)

/-- The DiscoveryState enumeration from iohome_2w.h. -/
inductive DiscoveryState where
  | IDLE
  | DISCOVERING
  | FOUND
deriving DecidableEq, Repr

/-- MAX_DISCOVERED_DEVICES from iohome_2w.h. -/
def MAX_DISCOVERED_DEVICES : Nat := 32

/-- The DiscoveredDevice record from iohome_2w.h; device_type holds the
raw byte the source casts to the DeviceType enumeration. -/
structure DiscoveredDevice where
  node_id : List Nat
  device_type : Nat
  manufacturer : Nat
  protocol_version : Nat
  rssi : Int
  timestamp_ms : Nat
deriving DecidableEq, Repr

/-- The DiscoveryManager state from iohome_2w.h; the device array together
with discovered_count_ is modelled as the list of its live entries. -/
structure DiscoveryManager where
  own_node_id : List Nat
  state : DiscoveryState
  discovery_start_time : Nat
  discovery_timeout : Nat
  discovery_device_type : Nat
  discovered_devices : List DiscoveredDevice
deriving DecidableEq, Repr

/-- DiscoveryManager::begin from iohome_2w.cpp. -/
def discovery_begin (own_node_id : List Nat) : DiscoveryManager :=
  { own_node_id := (List.range NODE_ID_SIZE).map (fun i => own_node_id.getD i 0)
    state := DiscoveryState.IDLE
    discovery_start_time := 0
    discovery_timeout := 0
    discovery_device_type := 0xFF
    discovered_devices := [] }

/-- DiscoveryManager::start_discovery from iohome_2w.cpp, clock
externalized: enter DISCOVERING and reset the device count. -/
def start_discovery (m : DiscoveryManager) (device_type : Nat)
    (timeout_ms now_ms : Nat) : DiscoveryManager :=
  { m with
    state := DiscoveryState.DISCOVERING
    discovery_start_time := now_ms
    discovery_timeout := timeout_ms
    discovery_device_type := device_type
    discovered_devices := [] }

/-- DiscoveryManager::stop_discovery from iohome_2w.cpp. -/
def stop_discovery (m : DiscoveryManager) : DiscoveryManager :=
  { m with state := DiscoveryState.IDLE }

/-- DiscoveryManager::process_discovery_response from iohome_2w.cpp,
clock externalized: reject unless in DISCOVERING state, reject when the
list is full, reject sources already listed (three-byte comparison),
otherwise append the decoded device entry and move to state FOUND. -/
def process_discovery_response (m : DiscoveryManager) (f : frame.IoFrame)
    (rssi : Int) (now_ms : Nat) : Bool × DiscoveryManager :=
  if m.state ≠ DiscoveryState.DISCOVERING then (false, m)
  else if m.discovered_devices.length ≥ MAX_DISCOVERED_DEVICES then (false, m)
  else if m.discovered_devices.any (fun d => d.node_id == f.src_node) then (false, m)
  else
    let device : DiscoveredDevice :=
      { node_id := f.src_node
        device_type := if f.data.length ≥ 2 then f.data.getD 0 0 else 0x00
        manufacturer := if f.data.length ≥ 2 then f.data.getD 1 0 else 0
        protocol_version := if f.data.length ≥ 3 then f.data.getD 2 0 else 0
        rssi := rssi
        timestamp_ms := now_ms }
    (true, { m with
      discovered_devices := m.discovered_devices ++ [device]
      state := DiscoveryState.FOUND })

end mode2w

/-! ## Concrete data used by the claim checks -/

/-- The sample system key 00 01 .. 0F of scenario S2. -/
def sample_key : List Nat := [0, 1, 2, 3, 4, 5, 6, 7, 8, 9, 10, 11, 12, 13, 14, 15]

/-- The sample challenge 11 22 33 44 55 66 of scenario S4. -/
def sample_challenge : List Nat := [0x11, 0x22, 0x33, 0x44, 0x55, 0x66]

/-- The 1W frame of scenario S2, built exactly through the source
pipeline: init_frame, set_destination, set_source, set_command with two
parameter bytes, set_rolling_code 7, finalize_frame. -/
def s2_frame : Option frame.IoFrame :=
  match frame.set_command
      (frame.set_source
        (frame.set_destination (frame.init_frame true) [0x64, 0x65, 0x75])
        [0xAB, 0xCD, 0xEF])
      0x60 [50, 0] with
  | none => none
  | some f => frame.finalize_frame (frame.set_rolling_code f 7) sample_key none

/-- A finalized 2W challenge-response frame bound to sample_challenge. -/
def sample_2w_frame : Option frame.IoFrame :=
  match frame.set_command
      (frame.set_source
        (frame.set_destination (frame.init_frame false) [1, 2, 3]) [4, 5, 6])
      CMD_CHALLENGE_RESPONSE sample_challenge with
  | none => none
  | some f => frame.finalize_frame f sample_key (some sample_challenge)

/-- The bytes of the serialized S2 frame followed by one padding byte, so
that the parser (which expects frame_length bytes, one more than
serialize_frame emits) accepts them: the shape of an over-the-air capture
of the S2 frame. -/
def replay_buffer : List Nat :=
  match s2_frame.bind (fun f => frame.serialize_frame f FRAME_MAX_SIZE) with
  | some bytes => bytes ++ [0x00]
  | none => []

/-- A receiving controller holding sample_key. -/
def sample_controller : IoHomeControl :=
  { own_node_id := [1, 2, 3]
    system_key := sample_key
    is_1w_mode := true
    rolling_code := 0
    receiving := true }

/-! ## Helper lemmas -/

/-- Unsigned 64-bit subtraction agrees with truncated subtraction when the
minuend is in range and at least the subtrahend. -/
theorem usub_eq_sub {a b : Nat} (hba : b ≤ a) (ha : a < mode2w.U64) :
    mode2w.usub a b = a - b := by
  simp only [mode2w.usub, mode2w.U64] at *
  omega

/-- Xor-masking a byte list twice with the same mask gives the list back. -/
theorem zipWith_xor_mask_cancel :
    ∀ (a b : List Nat), a.length ≤ b.length →
      List.zipWith Nat.xor (List.zipWith Nat.xor a b) b = a
  | [], _, _ => by simp
  | x :: a, y :: b, h => by
    simp only [List.zipWith, List.cons.injEq]
    exact ⟨Nat.xor_cancel_right y x, zipWith_xor_mask_cancel a b (by simpa using h)⟩
  | x :: a, [], h => by simp at h

/-! ## The claims -/

set_option maxRecDepth 100000 in
/-- C1: the source cannot parse its own serialization.  The S2 frame,
well formed by construction, records frame_length 22 while
serialize_frame emits only 21 bytes, so parse_frame rejects the
serialization as truncated; handing the parser one extra byte recovers
the frame exactly, field for field, which isolates the off-by-one length
accounting of set_command as the sole cause. -/
theorem c1_parse_of_serialize_fails :
    (s2_frame.map (fun f => f.frame_length)) = some 22
    ∧ (s2_frame.bind (fun f =>
        (frame.serialize_frame f FRAME_MAX_SIZE).map List.length)) = some 21
    ∧ (s2_frame.bind (fun f =>
        (frame.serialize_frame f FRAME_MAX_SIZE).bind frame.parse_frame)) = none
    ∧ (s2_frame.bind (fun f =>
        (frame.serialize_frame f FRAME_MAX_SIZE).bind
          (fun bytes => frame.parse_frame (bytes ++ [0x00])))) = s2_frame := by
  decide

set_option maxRecDepth 100000 in
/-- C2, counterexample: the 1W frame with two parameter bytes built by
set_command (scenario S2) has frame_length 22 and Ctrl0 = 0x0B, not the
claimed total length 15 and Ctrl0 = 0x04. -/
theorem c2_counterexample :
    (frame.set_command
        (frame.set_source
          (frame.set_destination (frame.init_frame true) [0x64, 0x65, 0x75])
          [0xAB, 0xCD, 0xEF])
        0x60 [50, 0]).map (fun f => (f.frame_length, f.ctrl_byte_0))
      = some (22, 0x0B)
    ∧ ((22, 0x0B) : Nat × Nat) ≠ (11 + 2 + 2, 0x04) := by
  decide

/-- C2, amended: a frame built with set_command has frame_length
18 + len(params) + (2 in 1W mode), the low five bits of Ctrl0 encode
frame_length - 11, and a 1W frame with two parameter bytes gets
Ctrl0 = 0x0B. -/
theorem c2_frame_length_encoding
    (is_1w : Bool) (dest src : List Nat) (cmd_id : Nat) (params : List Nat)
    (hp : params.length ≤ FRAME_MAX_DATA_SIZE)
    (f : frame.IoFrame)
    (hf : frame.set_command
        (frame.set_source (frame.set_destination (frame.init_frame is_1w) dest) src)
        cmd_id params = some f) :
    f.frame_length = 18 + params.length + (if is_1w then 2 else 0)
    ∧ f.ctrl_byte_0 &&& CTRL0_LENGTH_MASK = f.frame_length - FRAME_MIN_SIZE
    ∧ (is_1w = true → params.length = 2 → f.ctrl_byte_0 = 0x0B) := by
  have hp21 : params.length ≤ 21 := by simpa [FRAME_MAX_DATA_SIZE] using hp
  simp only [frame.set_command, frame.set_source, frame.set_destination,
    frame.init_frame, FRAME_MAX_DATA_SIZE, FRAME_MIN_SIZE, CTRL0_LENGTH_MASK,
    CTRL0_PROTOCOL_MASK, ROLLING_CODE_SIZE, HMAC_SIZE, CRC_SIZE] at hf
  rw [if_neg (by omega)] at hf
  simp only [Option.some.injEq] at hf
  subst hf
  cases is_1w <;>
    simp only [if_true, if_false, Bool.false_eq_true, FRAME_MIN_SIZE,
      CTRL0_LENGTH_MASK] <;>
    set p := params.length with hpdef <;>
    interval_cases p <;> decide

/-- The frame set_command returns for the scenario-S2 build inputs. -/
def c2_sample_frame : frame.IoFrame :=
  { ctrl_byte_0 := 0x0B
    ctrl_byte_1 := 0
    dest_node := [0x64, 0x65, 0x75]
    src_node := [0xAB, 0xCD, 0xEF]
    command_id := 0x60
    data := [50, 0]
    rolling_code := [0, 0]
    hmac := [0, 0, 0, 0, 0, 0]
    crc := [0, 0]
    is_1w_mode := true
    frame_length := 22 }

/-- Witness for the amended C2 at the concrete S2 build inputs. -/
theorem c2_frame_length_encoding_witness :
    c2_sample_frame.frame_length = 18 + [50, 0].length + (if true then 2 else 0)
    ∧ c2_sample_frame.ctrl_byte_0 &&& CTRL0_LENGTH_MASK
        = c2_sample_frame.frame_length - FRAME_MIN_SIZE
    ∧ (true = true → [50, 0].length = 2 → c2_sample_frame.ctrl_byte_0 = 0x0B) :=
  c2_frame_length_encoding true [0x64, 0x65, 0x75] [0xAB, 0xCD, 0xEF] 0x60 [50, 0]
    (by decide) c2_sample_frame (by decide)

set_option maxRecDepth 100000 in
/-- C3, counterexample: compute_crc16 over the ASCII bytes of 123456789
does not return the claimed 0x8921. -/
theorem c3_counterexample :
    crypto.compute_crc16 [0x31, 0x32, 0x33, 0x34, 0x35, 0x36, 0x37, 0x38, 0x39]
      CRC_INITIAL ≠ 0x8921 := by
  decide

set_option maxRecDepth 100000 in
/-- C3, amended: the CRC-16/KERMIT of the ASCII bytes of 123456789 with
initial value 0 is 0x2189, stored least significant byte first on the
wire (the convention of finalize_frame) as the byte pair 89 21. -/
theorem c3_crc_check_value :
    crypto.compute_crc16 [0x31, 0x32, 0x33, 0x34, 0x35, 0x36, 0x37, 0x38, 0x39]
      CRC_INITIAL = 0x2189
    ∧ [0x2189 &&& 0xFF, (0x2189 >>> 8) &&& 0xFF] = [0x89, 0x21] := by
  decide

set_option maxRecDepth 100000 in
/-- C4, counterexample: the same over-the-air S2 frame, carrying rolling
code 7, is accepted by the receive path twice in a row; the second
delivery is a replay that a rolling-code window check would reject. -/
theorem c4_replay_accepted_twice :
    (check_received sample_controller replay_buffer).1 = some true
    ∧ (check_received (check_received sample_controller replay_buffer).2
        replay_buffer).1 = some true := by
  decide

/-- C4, amended: the receive path keeps no rolling-code state at all: the
controller state is returned unchanged, and a buffer is delivered exactly
when the controller is receiving and the bytes parse and validate (CRC
and HMAC under the stored key), independent of any previously received
frame. -/
theorem c4_receive_path_stateless (st : IoHomeControl) (buffer : List Nat) :
    (check_received st buffer).2 = st
    ∧ ((check_received st buffer).1 = some true ↔
        st.receiving = true
        ∧ ∃ f, frame.parse_frame buffer = some f
            ∧ frame.validate_frame f (some st.system_key) none = some true) := by
  unfold check_received
  by_cases hr : st.receiving
  case neg =>
    simp [hr]
  case pos =>
    cases hp : frame.parse_frame buffer with
    | none => simp [hr, hp]
    | some f => simp [hr, hp]

set_option maxRecDepth 100000 in
/-- C5: validating a finalized 2W frame with a system key but no
challenge does not fail cleanly: validate_frame has no null-challenge
guard, so the null pointer reaches the memcpy inside construct_iv_2w
(undefined behaviour, modelled as none), while the same frame validates
when the challenge is supplied. -/
theorem c5_null_challenge_undefined :
    (sample_2w_frame.map
        (fun f => frame.validate_frame f (some sample_key) none)) = some none
    ∧ (sample_2w_frame.map
        (fun f => frame.validate_frame f (some sample_key) (some sample_challenge)))
      = some (some true) := by
  decide

/-- C6: verify_challenge_response returns true exactly when the state is
CHALLENGE_SENT, the elapsed time is at most the 5000 ms timeout, the
command is 0x3D and validate_frame passes with the stored challenge as
binding; success moves the state to AUTHENTICATED and a timeout moves it
back to IDLE. -/
theorem c6_verify_challenge_response
    (m : mode2w.AuthenticationManager) (now_ms : Nat) (f : frame.IoFrame)
    (htmo : m.challenge_timeout_ms = 5000)
    (hts : m.challenge_timestamp ≤ now_ms)
    (hnow : now_ms < mode2w.U64) :
    ((mode2w.verify_challenge_response m now_ms f).1 = true ↔
      (m.state = mode2w.ChallengeState.CHALLENGE_SENT
        ∧ now_ms - m.challenge_timestamp ≤ 5000
        ∧ f.command_id = CMD_CHALLENGE_RESPONSE
        ∧ frame.validate_frame f (some m.system_key) (some m.current_challenge)
            = some true))
    ∧ ((mode2w.verify_challenge_response m now_ms f).1 = true →
        (mode2w.verify_challenge_response m now_ms f).2.state
          = mode2w.ChallengeState.AUTHENTICATED)
    ∧ (m.state = mode2w.ChallengeState.CHALLENGE_SENT →
        5000 < now_ms - m.challenge_timestamp →
        (mode2w.verify_challenge_response m now_ms f).2.state
          = mode2w.ChallengeState.IDLE) := by
  have hu : mode2w.usub now_ms m.challenge_timestamp
      = now_ms - m.challenge_timestamp := usub_eq_sub hts hnow
  unfold mode2w.verify_challenge_response
  rw [hu, htmo]
  by_cases hst : m.state = mode2w.ChallengeState.CHALLENGE_SENT
  case neg =>
    simp [hst]
  case pos =>
    by_cases hto : 5000 < now_ms - m.challenge_timestamp
    case pos =>
      have hnle : ¬ (now_ms - m.challenge_timestamp ≤ 5000) := by omega
      simp [hst, hto, hnle]
    case neg =>
      have hle : now_ms - m.challenge_timestamp ≤ 5000 := by omega
      by_cases hcmd : f.command_id = CMD_CHALLENGE_RESPONSE
      case neg =>
        simp [hst, hto, hcmd]
      case pos =>
        cases hv : frame.validate_frame f (some m.system_key) (some m.current_challenge) with
        | none => simp [hst, hto, hcmd, hv, hle]
        | some b =>
          cases b with
          | false => simp [hst, hto, hcmd, hv, hle]
          | true => simp [hst, hto, hcmd, hv, hle]

/-- An authentication manager holding sample_key that has just issued
sample_challenge at time zero. -/
def sample_auth_manager : mode2w.AuthenticationManager :=
  { system_key := sample_key
    current_challenge := sample_challenge
    state := mode2w.ChallengeState.CHALLENGE_SENT
    challenge_timestamp := 0
    challenge_timeout_ms := 5000 }

/-- Witness for C6 at the concrete manager sample_auth_manager, time 0
and the empty 1W frame. -/
theorem c6_verify_challenge_response_witness :
    ((mode2w.verify_challenge_response sample_auth_manager 0 (frame.init_frame true)).1 = true ↔
      (sample_auth_manager.state = mode2w.ChallengeState.CHALLENGE_SENT
        ∧ 0 - sample_auth_manager.challenge_timestamp ≤ 5000
        ∧ (frame.init_frame true).command_id = CMD_CHALLENGE_RESPONSE
        ∧ frame.validate_frame (frame.init_frame true)
            (some sample_auth_manager.system_key)
            (some sample_auth_manager.current_challenge) = some true))
    ∧ ((mode2w.verify_challenge_response sample_auth_manager 0 (frame.init_frame true)).1 = true →
        (mode2w.verify_challenge_response sample_auth_manager 0 (frame.init_frame true)).2.state
          = mode2w.ChallengeState.AUTHENTICATED)
    ∧ (sample_auth_manager.state = mode2w.ChallengeState.CHALLENGE_SENT →
        5000 < 0 - sample_auth_manager.challenge_timestamp →
        (mode2w.verify_challenge_response sample_auth_manager 0 (frame.init_frame true)).2.state
          = mode2w.ChallengeState.IDLE) :=
  c6_verify_challenge_response sample_auth_manager 0 (frame.init_frame true)
    rfl (by decide) (by decide)

/-- The enabled channel hopper of scenario S5: begun at t = 0 with the
default dwell of 2700 microseconds. -/
def sample_hopper : mode2w.ChannelHopper :=
  { mode2w.hopper_begin 2700 0 with enabled := true }

/-- C7: the hopper clock is millisecond-granular, so with the 2700 us
dwell it hops once per 3 ms, not once per 2700 us: polled every
millisecond from t = 0 it has made no hop by 2 ms, exactly one hop (to
CHANNEL_3) by 3 ms, and only 4 hops by 14 ms (= 14000 us), sitting on
CHANNEL_3, where a 2700 us dwell would have made 5 hops and be back on
CHANNEL_1. -/
theorem c7_hopper_millisecond_grid :
    (mode2w.hopper_run sample_hopper [1, 2]).2 = 0
    ∧ (mode2w.hopper_run sample_hopper [1, 2, 3]).2 = 1
    ∧ (mode2w.hopper_run sample_hopper [1, 2, 3]).1.current_channel
        = mode2w.ChannelState.CHANNEL_3
    ∧ (mode2w.hopper_run sample_hopper
        [1, 2, 3, 4, 5, 6, 7, 8, 9, 10, 11, 12, 13, 14]).2 = 4
    ∧ (mode2w.hopper_run sample_hopper
        [1, 2, 3, 4, 5, 6, 7, 8, 9, 10, 11, 12, 13, 14]).1.current_channel
        = mode2w.ChannelState.CHANNEL_3 := by
  decide

/-- A discovery response frame from source A1 A2 A3. -/
def discovery_resp_a : frame.IoFrame :=
  (frame.set_command
    (frame.set_source (frame.set_destination (frame.init_frame true) [1, 2, 3])
      [0xA1, 0xA2, 0xA3])
    0x29 [0x00, 0x07, 0x01]).getD (frame.init_frame true)

/-- A discovery response frame from source B1 B2 B3. -/
def discovery_resp_b : frame.IoFrame :=
  (frame.set_command
    (frame.set_source (frame.set_destination (frame.init_frame true) [1, 2, 3])
      [0xB1, 0xB2, 0xB3])
    0x29 [0x03, 0x07, 0x01]).getD (frame.init_frame true)

/-- A discovery manager with a freshly opened session. -/
def sample_discovery : mode2w.DiscoveryManager :=
  mode2w.start_discovery (mode2w.discovery_begin [1, 2, 3]) 0xFF 10000 0

/-- C8: in an open discovery session the first response flips the state
to FOUND, and process_discovery_response then rejects every further
response, so the second response from a distinct previously-unseen
source is dropped and the peer list stays at one entry. -/
theorem c8_second_response_dropped :
    discovery_resp_a.src_node ≠ discovery_resp_b.src_node
    ∧ (mode2w.process_discovery_response sample_discovery discovery_resp_a (-50) 5).1
        = true
    ∧ (mode2w.process_discovery_response sample_discovery discovery_resp_a (-50) 5).2.state
        = mode2w.DiscoveryState.FOUND
    ∧ ((mode2w.process_discovery_response sample_discovery discovery_resp_a
          (-50) 5).2.discovered_devices.length) = 1
    ∧ (mode2w.process_discovery_response
        (mode2w.process_discovery_response sample_discovery discovery_resp_a (-50) 5).2
        discovery_resp_b (-60) 6).1 = false
    ∧ ((mode2w.process_discovery_response
        (mode2w.process_discovery_response sample_discovery discovery_resp_a (-50) 5).2
        discovery_resp_b (-60) 6).2.discovered_devices.length) = 1 := by
  decide

/-- C9: the 1W key-transfer envelope is the system key xored with the AES
encryption, under TRANSFER_KEY, of the 16-byte block obtained by cycling
the 3-byte destination node id, and applying the same masking again with
the same destination recovers the system key exactly. -/
theorem c9_key_transfer_envelope (system_key node_address : List Nat)
    (hkey : system_key.length = AES_KEY_SIZE)
    (hnode : node_address.length = NODE_ID_SIZE) :
    crypto.encrypt_1w_key system_key node_address
      = List.zipWith Nat.xor system_key
          (crypto.aes128_encrypt
            ((List.range 16).map (fun i => node_address.getD (i % NODE_ID_SIZE) 0))
            TRANSFER_KEY)
    ∧ crypto.encrypt_1w_key (crypto.encrypt_1w_key system_key node_address)
        node_address = system_key := by
  constructor
  · rfl
  · have hE := crypto.aes128_encrypt_length
      ((List.range 16).map (fun i => node_address.getD (i % NODE_ID_SIZE) 0))
      TRANSFER_KEY
    simp only [AES_KEY_SIZE] at hkey
    simp only [crypto.encrypt_1w_key]
    apply zipWith_xor_mask_cancel
    simp only [List.length_zipWith, hE]
    omega

/-- Witness for C9 at the concrete key 00 01 .. 0F and destination
AA BB CC of scenario S6. -/
theorem c9_key_transfer_envelope_witness :
    crypto.encrypt_1w_key sample_key [0xAA, 0xBB, 0xCC]
      = List.zipWith Nat.xor sample_key
          (crypto.aes128_encrypt
            ((List.range 16).map (fun i => [0xAA, 0xBB, 0xCC].getD (i % NODE_ID_SIZE) 0))
            TRANSFER_KEY)
    ∧ crypto.encrypt_1w_key (crypto.encrypt_1w_key sample_key [0xAA, 0xBB, 0xCC])
        [0xAA, 0xBB, 0xCC] = sample_key :=
  c9_key_transfer_envelope sample_key [0xAA, 0xBB, 0xCC] (by decide) (by decide)

/-- C10: whenever parse_frame accepts a buffer, the decoded parameter
count is at most 21 and the frame length decoded from Ctrl0 fits inside
the supplied buffer, so every read offset of the parser is in bounds;
and any Ctrl0 whose decoded frame length lies below the fixed overhead
of its mode (20 bytes in 1W, 18 in 2W) is rejected, because the unsigned
8-bit subtraction wraps to a parameter count far above 21. -/
theorem c10_parser_bounds :
    (∀ (buffer : List Nat) (f : frame.IoFrame),
        frame.parse_frame buffer = some f →
          f.data.length ≤ FRAME_MAX_DATA_SIZE
          ∧ f.frame_length ≤ buffer.length)
    ∧ (∀ (buffer : List Nat),
        frame.get_frame_length (buffer.getD 0 0) <
            (if frame.is_2w_mode (buffer.getD 0 0) then 18 else 20) →
          frame.parse_frame buffer = none) := by
  constructor
  · intro buffer f h
    unfold frame.parse_frame at h
    by_cases h11 : buffer.length < FRAME_MIN_SIZE
    · simp [h11] at h
    · rw [if_neg h11] at h
      by_cases hfl : buffer.length < frame.get_frame_length (buffer.getD 0 0)
      · rw [if_pos hfl] at h
        simp at h
      · rw [if_neg hfl] at h
        set g := frame.get_frame_length (buffer.getD 0 0) with hg
        split at h <;> simp only [] at h <;> split at h <;>
          first
          | exact Option.noConfusion h
          | (simp only [Option.some.injEq] at h
             subst h
             constructor <;> simp only [List.length_take, List.length_drop] <;> omega)
  · intro buffer hlt
    unfold frame.parse_frame
    by_cases h11 : buffer.length < FRAME_MIN_SIZE
    · rw [if_pos h11]
    · rw [if_neg h11]
      by_cases hfl : buffer.length < frame.get_frame_length (buffer.getD 0 0)
      · rw [if_pos hfl]
      · rw [if_neg hfl]
        set c0 := buffer.getD 0 0 with hc0
        have hg11 : FRAME_MIN_SIZE ≤ frame.get_frame_length c0 := by
          simp only [frame.get_frame_length, FRAME_MIN_SIZE]
          omega
        split
        · simp only []
          split
          · rfl
          · rename_i hmode hdl
            exfalso
            have h2w : frame.is_2w_mode c0 = false := by simpa using hmode
            simp [h2w] at hlt
            simp [FRAME_MAX_DATA_SIZE, ROLLING_CODE_SIZE, HMAC_SIZE, CRC_SIZE] at hdl
            simp only [FRAME_MIN_SIZE] at hg11
            omega
        · simp only []
          split
          · rfl
          · rename_i hmode hdl
            exfalso
            have h2w : frame.is_2w_mode c0 = true := not_not.mp hmode
            simp [h2w] at hlt
            simp [FRAME_MAX_DATA_SIZE, HMAC_SIZE, CRC_SIZE] at hdl
            simp only [FRAME_MIN_SIZE] at hg11
            omega

/-- A 20-byte buffer carrying a minimal 1W frame (Ctrl0 = 0x09, no
parameters) that parse_frame accepts. -/
def c10_sample_buffer : List Nat :=
  [9, 0, 1, 2, 3, 4, 5, 6, 0x60, 7, 0, 11, 12, 13, 14, 15, 16, 17, 18, 99]

/-- The frame parse_frame decodes from c10_sample_buffer. -/
def c10_sample_parsed : frame.IoFrame :=
  { ctrl_byte_0 := 9
    ctrl_byte_1 := 0
    dest_node := [1, 2, 3]
    src_node := [4, 5, 6]
    command_id := 0x60
    data := []
    rolling_code := [7, 0]
    hmac := [11, 12, 13, 14, 15, 16]
    crc := [17, 18]
    is_1w_mode := true
    frame_length := 20 }

/-- A 20-byte buffer whose Ctrl0 = 0x05 decodes a 1W frame length of 16,
below the 1W overhead of 20, which the parser must reject. -/
def c10_bad_buffer : List Nat :=
  [5, 0, 1, 2, 3, 4, 5, 6, 0x60, 7, 0, 11, 12, 13, 14, 15, 16, 17, 18, 99]

/-- Witness for C10 at the concrete accepted and rejected buffers. -/
theorem c10_parser_bounds_witness :
    (c10_sample_parsed.data.length ≤ FRAME_MAX_DATA_SIZE
      ∧ c10_sample_parsed.frame_length ≤ c10_sample_buffer.length)
    ∧ frame.parse_frame c10_bad_buffer = none :=
  ⟨c10_parser_bounds.1 c10_sample_buffer c10_sample_parsed (by decide),
   c10_parser_bounds.2 c10_bad_buffer (by decide)⟩

end iohome
